import Mathlib

/-
  Shallow embedding of the booking front-end (AdminDashboard.tsx booking wizard,
  Bookings.tsx domain mapper and delete handler), with theorems checking the
  natural-language specification against the code.
-/

namespace BookingFront

/-- Step identifiers of the booking wizard, as in the StepId union type. -/
inductive StepId
  | contact
  | credit
  | flights
  | hotels
  | visa
  | transport
  | costing
deriving DecidableEq, Repr

/-- The fixed wizard step order, as in the steps array (icons and titles omitted). -/
def stepsOrder : List StepId :=
  [StepId.contact, StepId.credit, StepId.flights, StepId.hotels,
   StepId.visa, StepId.transport, StepId.costing]

/-- BookingFormData from AdminDashboard.tsx. Optional TypeScript fields
(pnr, package, date) are Option String; enum-valued fields are plain strings. -/
structure BookingFormData where
  name : String
  passengers : String
  adults : String
  children : String
  email : String
  contactNumber : String
  agent : String
  cardNumber : String
  expiryDate : String
  cvv : String
  cardholderName : String
  departureCity : String
  arrivalCity : String
  departureDate : String
  returnDate : String
  flightClass : String
  pnr : Option String
  hotelName : String
  roomType : String
  checkIn : String
  checkOut : String
  visaType : String
  passportNumber : String
  nationality : String
  transportType : String
  pickupLocation : String
  packagePrice : String
  additionalServices : String
  totalAmount : String
  paymentMethod : String
  package : Option String
  date : Option String
deriving DecidableEq, Repr

/-- Membership in the JS regex character class [A-Z0-9]. -/
def isUpperAlnum (c : Char) : Bool :=
  (decide ('A' ≤ c) && decide (c ≤ 'Z')) || (decide ('0' ≤ c) && decide (c ≤ '9'))

/-- Shallow embedding of the test of the regex matching exactly 6 chars of [A-Z0-9]. -/
def pnrRegexTest (s : String) : Bool :=
  s.toList.length == 6 && s.toList.all isUpperAlnum

/-- sanitizePNR from source: uppercase, strip non-alphanumerics, keep the first 6. -/
def sanitizePNR (v : String) : String :=
  String.mk (((v.toList.map Char.toUpper).filter isUpperAlnum).take 6)

/-- JS String.prototype.trim: strips whitespace from both ends. Defined over
the character list so that it evaluates by kernel reduction. -/
def jsTrim (s : String) : String :=
  String.mk (((s.toList.dropWhile Char.isWhitespace).reverse.dropWhile
    Char.isWhitespace).reverse)

/-- JS optional chaining plus trim: undefined yields the empty string,
a present string is trimmed. Models v?.trim() in a truthiness test. -/
def optTrim (v : Option String) : String :=
  jsTrim (v.getD "")

/-- JS truthiness test (falsy) for an optional string field: undefined and
the empty string are falsy. -/
def jsFalsyOpt (v : Option String) : Bool :=
  v.getD "" == ""

/-- One conditional error entry, mirroring an if statement that assigns a key
in the error record. -/
def errIf (c : Bool) (k v : String) : List (String × String) :=
  if c then [(k, v)] else []

/-- The strict PNR check inside the flights branch of validateStepData:
required (truthy after optional-chain trim), then the 6-char regex gate. -/
def pnrErrors (pnr : Option String) : List (String × String) :=
  if optTrim pnr == "" then
    [("pnr", "PNR is required")]
  else if !(pnrRegexTest (optTrim pnr)) then
    [("pnr", "PNR must be exactly 6 letters/numbers (e.g. ABC12D)")]
  else []

/-- validateStepData from AdminDashboard.tsx: the per-step pure validator.
The error record is modelled as an association list in assignment order. -/
def validateStepData (formData : BookingFormData) (id : StepId) : List (String × String) :=
  (if id = StepId.contact then
    errIf (jsTrim formData.name == "") "name" "Name is required"
    ++ errIf (jsTrim formData.email == "") "email" "Email is required"
    ++ errIf (jsTrim formData.contactNumber == "") "contactNumber" "Contact number is required"
    ++ errIf (jsTrim formData.passengers == "") "passengers" "Number of passengers is required"
  else []) ++
  (if id = StepId.credit then
    errIf (jsTrim formData.cardholderName == "") "cardholderName" "Cardholder name is required"
  else []) ++
  (if id = StepId.flights then
    errIf (jsTrim formData.departureCity == "") "departureCity" "Departure city is required"
    ++ errIf (jsTrim formData.arrivalCity == "") "arrivalCity" "Arrival city is required"
    ++ errIf (formData.departureDate == "") "departureDate" "Departure date is required"
    ++ errIf (formData.returnDate == "") "returnDate" "Return date is required"
    ++ errIf (jsFalsyOpt formData.date) "date" "Booking date is required"
    ++ pnrErrors formData.pnr
  else []) ++
  (if id = StepId.costing then
    errIf (jsTrim formData.totalAmount == "") "totalAmount" "Total amount is required"
    ++ errIf (optTrim formData.package == "") "package" "Package is required"
  else [])

/-- Required-field reading used by claim C1, taken literally: a field is
present when it is a non-empty string (no trimming), and the PNR trimmed
value must match the 6-char regex. -/
def claimC1Required (fd : BookingFormData) (id : StepId) : Bool :=
  match id with
  | StepId.contact =>
      fd.name != "" && fd.email != "" && fd.contactNumber != "" && fd.passengers != ""
  | StepId.credit => fd.cardholderName != ""
  | StepId.flights =>
      fd.departureCity != "" && fd.arrivalCity != "" && fd.departureDate != "" &&
      fd.returnDate != "" && !(jsFalsyOpt fd.date) && pnrRegexTest (optTrim fd.pnr)
  | StepId.costing => fd.totalAmount != "" && fd.package.getD "" != ""
  | _ => true

/-- The condition validateStepData actually enforces per step: non-blank after
trimming for the trimmed text fields, literal non-emptiness for the date
strings, and the trimmed PNR matching the 6-char regex. -/
def requiredOk (fd : BookingFormData) (id : StepId) : Bool :=
  match id with
  | StepId.contact =>
      jsTrim fd.name != "" && jsTrim fd.email != "" && jsTrim fd.contactNumber != "" &&
      jsTrim fd.passengers != ""
  | StepId.credit => jsTrim fd.cardholderName != ""
  | StepId.flights =>
      jsTrim fd.departureCity != "" && jsTrim fd.arrivalCity != "" && fd.departureDate != "" &&
      fd.returnDate != "" && !(jsFalsyOpt fd.date) && pnrRegexTest (optTrim fd.pnr)
  | StepId.costing => jsTrim fd.totalAmount != "" && optTrim fd.package != ""
  | _ => true

lemma errIf_eq_nil (c : Bool) (k v : String) : errIf c k v = [] ↔ c = false := by
  cases c <;> simp [errIf]

lemma pnrErrors_eq_nil (p : Option String) :
    pnrErrors p = [] ↔ pnrRegexTest (optTrim p) = true := by
  unfold pnrErrors
  by_cases h : optTrim p = ""
  · have hre : pnrRegexTest "" = false := by decide
    simp [h, hre]
  · have hb : (optTrim p == "") = false := by
      simp [h]
    by_cases hre : pnrRegexTest (optTrim p) = true
    · simp [hb, hre]
    · simp [hb, hre]

lemma validate_nil_iff (fd : BookingFormData) (id : StepId) :
    validateStepData fd id = [] ↔ requiredOk fd id = true := by
  cases id <;>
    simp [validateStepData, requiredOk, errIf_eq_nil, pnrErrors_eq_nil] <;>
    tauto

/-- A concrete contact-step form: whitespace-only name, every other contact
field filled, trip fields blank as in the initial empty slot. -/
def fdWhitespaceName : BookingFormData :=
  { name := " ", passengers := "2", adults := "2", children := "0",
    email := "a@x.com", contactNumber := "+1-555-1234", agent := "",
    cardNumber := "", expiryDate := "", cvv := "", cardholderName := "",
    departureCity := "", arrivalCity := "", departureDate := "", returnDate := "",
    flightClass := "economy", pnr := some "",
    hotelName := "", roomType := "", checkIn := "", checkOut := "",
    visaType := "umrah", passportNumber := "", nationality := "",
    transportType := "bus", pickupLocation := "",
    packagePrice := "", additionalServices := "", totalAmount := "",
    paymentMethod := "credit_card", package := some "", date := some "" }

/-- C1 counterexample: with a whitespace-only name and all other contact
fields non-empty, every required contact field is non-empty in the literal
sense of the claim, yet validateStepData still reports a name error, so the
claimed if-and-only-if fails at this input. -/
theorem validateStepData_claimC1_counterexample :
    ¬ ((validateStepData fdWhitespaceName StepId.contact = []) ↔
       claimC1Required fdWhitespaceName StepId.contact = true) := by
  decide

/-- C1 (amended): for every form data and step id, validateStepData returns an
empty error map iff the required fields of that step are present, where the
trimmed text fields (name, email, contact number, passengers, cardholder name,
cities, total amount, package) must be non-blank after trimming, the date
strings (departure date, return date, booking date) must be literally
non-empty, and the trimmed PNR must match the 6-char [A-Z0-9] regex; hotels,
visa and transport have no required fields. -/
theorem validateStepData_empty_iff (fd : BookingFormData) (id : StepId) :
    validateStepData fd id = [] ↔ requiredOk fd id = true :=
  validate_nil_iff fd id

lemma pnrRegexTest_len_alnum (s : String) (h : pnrRegexTest s = true) :
    s.toList.length = 6 ∧ s.toList.all isUpperAlnum = true := by
  simp only [pnrRegexTest, Bool.and_eq_true, beq_iff_eq] at h
  exact h

/-- A concrete flights-step form whose PNR is the sanitized "ab-12 d!". -/
def fdSanitized : BookingFormData :=
  { fdWhitespaceName with pnr := some (sanitizePNR "ab-12 d!") }

/-- C6: the sanitizer sends "ab-12 d!" to "AB12D" (uppercased, stripped of
non-alphanumerics, cut to at most 6 chars); this 5-char result fails the
flights validation for any form carrying it; and any form that passes the
flights validation carries a PNR whose trimmed value is exactly 6 chars
from [A-Z0-9]. -/
theorem sanitizePNR_spec (fd : BookingFormData)
    (h : fd.pnr = some (sanitizePNR "ab-12 d!")) :
    sanitizePNR "ab-12 d!" = "AB12D" ∧
    validateStepData fd StepId.flights ≠ [] ∧
    (∀ fd2 : BookingFormData, validateStepData fd2 StepId.flights = [] →
      ∃ s, fd2.pnr = some s ∧ (jsTrim s).toList.length = 6 ∧
        (jsTrim s).toList.all isUpperAlnum = true) := by
  refine ⟨by decide, ?_, ?_⟩
  · intro hnil
    have hrq := (validate_nil_iff fd StepId.flights).mp hnil
    simp only [requiredOk, Bool.and_eq_true] at hrq
    have hre := hrq.2
    rw [h] at hre
    exact absurd hre (by decide)
  · intro fd2 hnil
    have hrq := (validate_nil_iff fd2 StepId.flights).mp hnil
    simp only [requiredOk, Bool.and_eq_true] at hrq
    have hre := hrq.2
    cases hp : fd2.pnr with
    | none =>
        rw [hp] at hre
        exact absurd hre (by decide)
    | some s =>
        rw [hp] at hre
        have : optTrim (some s) = jsTrim s := rfl
        rw [this] at hre
        exact ⟨s, rfl, pnrRegexTest_len_alnum _ hre⟩

/-- C6 witness: the theorem applied to the concrete form fdSanitized. -/
theorem sanitizePNR_spec_witness :
    sanitizePNR "ab-12 d!" = "AB12D" ∧
    validateStepData fdSanitized StepId.flights ≠ [] :=
  ⟨(sanitizePNR_spec fdSanitized rfl).1, (sanitizePNR_spec fdSanitized rfl).2.1⟩

/-- JS logical-or on strings where the empty string is falsy. -/
def jsOrStr (s d : String) : String :=
  if s == "" then d else s

/-- JS logical-or applied to an optional string value with a string default:
undefined and the empty string fall through to the default. -/
def jsOrOpt (v : Option String) (d : String) : String :=
  match v with
  | none => d
  | some s => if s == "" then d else s

/-- Environment abstracting the impure JS primitives the payload builder and
mappers use: the current clock reading as an ISO string, Date parsing plus
toISOString (none when the date is invalid), and Number coercion of a cleaned
numeric string (none when the result is not finite). -/
structure JsEnv where
  nowIso : String
  parseIso : String → Option String
  jsNumber : String → Option Int

/-- isoOrNull from source: null for a falsy input, otherwise the ISO form of
the parsed date, or null when the date is invalid. -/
def isoOrNull (env : JsEnv) (v : Option String) : Option String :=
  match v with
  | none => none
  | some s => if s == "" then none else env.parseIso s

/-- The characters removed by the currency-stripping replace call. -/
def stripCurrency (s : String) : String :=
  String.mk (s.toList.filter (fun c => !(c == '$' || c == ',')))

/-- An untyped JS value, as far as the numeric coercions care: a finite
number, a string, or anything else. -/
inductive JsVal
  | num (n : Int)
  | str (s : String)
  | other
deriving DecidableEq, Repr

/-- toNumberMaybe as defined (twice, identically) in the source: finite
numbers pass through, strings are cleaned of currency characters and coerced
with 0 for a non-finite result, anything else is 0. -/
def toNumberMaybe (env : JsEnv) (v : JsVal) : Int :=
  match v with
  | JsVal.num n => n
  | JsVal.str s => (env.jsNumber (stripCurrency s)).getD 0
  | JsVal.other => 0

/-- toNumberMaybe applied through an optional field: undefined gives 0. -/
def toNumberMaybeU (env : JsEnv) (v : Option JsVal) : Int :=
  match v with
  | some jv => toNumberMaybe env jv
  | none => 0

/-- The authenticated user as read by buildBookingPayload: agentId, id and
the mongo-style underscore id field (modelled as mongoId, since a Lean field
cannot start with an underscore), each possibly absent; the user object
itself may also be absent. -/
structure AuthUser where
  agentId : Option String
  id : Option String
  mongoId : Option String
deriving DecidableEq, Repr

/-- The agentId line of buildBookingPayload: nullish-coalescing chain over
the optional user object, falling back to the form agent field when truthy. -/
def effectiveAgentId (user : Option AuthUser) (formData : BookingFormData) : Option String :=
  match user.bind AuthUser.agentId with
  | some a => some a
  | none =>
    match user.bind AuthUser.id with
    | some a => some a
    | none =>
      match user.bind AuthUser.mongoId with
      | some a => some a
      | none => if formData.agent == "" then none else some formData.agent

/-- The nested pricing object of the payload. -/
structure PricingPayload where
  packageName : String
  packagePrice : Int
  additionalServices : String
  totalAmount : Int
  paymentMethod : String
deriving DecidableEq, Repr

/-- The nested flight object of the payload. -/
structure FlightPayload where
  departureCity : String
  arrivalCity : String
  departureDate : String
  returnDate : String
  flightClass : String
  pnr : String
deriving DecidableEq, Repr

/-- The nested hotel object of the payload. -/
structure HotelPayload where
  hotelName : String
  roomType : String
  checkIn : String
  checkOut : String
deriving DecidableEq, Repr

/-- The nested visa object of the payload. -/
structure VisaPayload where
  visaType : String
  passportNumber : String
  nationality : String
deriving DecidableEq, Repr

/-- The nested transport object of the payload. -/
structure TransportPayload where
  transportType : String
  pickupLocation : String
deriving DecidableEq, Repr

/-- The nested payment object of the payload (masked card data). -/
structure PaymentPayload where
  method : String
  cardLast4 : String
  cardholderName : String
  expiryDate : String
deriving DecidableEq, Repr

/-- The full payload object literal built by buildBookingPayload, nested
objects plus the flattened legacy duplicates. -/
structure BookingPayload where
  customerName : String
  customerEmail : String
  contactNumber : String
  passengers : String
  adults : String
  children : String
  agentId : Option String
  customerGroup : String
  package : String
  pricing : PricingPayload
  packagePrice : Int
  additionalServices : String
  totalAmount : Int
  paymentMethod : String
  amount : Int
  date : String
  departureDate : String
  returnDate : String
  flight : FlightPayload
  departureCity : String
  arrivalCity : String
  flightClass : String
  hotel : HotelPayload
  hotelName : String
  roomType : String
  checkIn : String
  checkOut : String
  visa : VisaPayload
  visaType : String
  passportNumber : String
  nationality : String
  transport : TransportPayload
  transportType : String
  pickupLocation : String
  payment : PaymentPayload
  cardNumber : String
  expiryDate : String
  cvv : String
  cardholderName : String
  status : String
  approvalStatus : String
deriving DecidableEq, Repr

/-- The (cardNumber or empty).replace non-digits.slice(-4) computation. -/
def lastFourDigits (s : String) : String :=
  let ds := s.toList.filter Char.isDigit
  String.mk (ds.drop (ds.length - 4))

/-- buildBookingPayload from AdminDashboard.tsx: pure payload builder; a
thrown Error is modelled as Except.error carrying the message. -/
def buildBookingPayload (env : JsEnv) (formData : BookingFormData)
    (user : Option AuthUser) : Except String BookingPayload :=
  let agentId := effectiveAgentId user formData
  let customerName := jsOrStr (jsTrim formData.name) ""
  let customerEmail := jsOrStr (jsTrim formData.email) ""
  let pkg := jsOrStr (optTrim formData.package) ""
  let bookingDateIso :=
    jsOrOpt (isoOrNull env formData.date)
      (jsOrOpt (isoOrNull env (some formData.departureDate)) env.nowIso)
  if customerName == "" then
    Except.error "Customer name is required"
  else if customerEmail == "" then
    Except.error "Customer email is required"
  else if pkg == "" then
    Except.error "Package is required"
  else
    let totalAmountNum := toNumberMaybe env (JsVal.str formData.totalAmount)
    let packagePriceNum := toNumberMaybe env (JsVal.str formData.packagePrice)
    Except.ok
      { customerName := customerName
        customerEmail := customerEmail
        contactNumber := jsOrStr formData.contactNumber ""
        passengers := jsOrStr formData.passengers ""
        adults := jsOrStr formData.adults ""
        children := jsOrStr formData.children ""
        agentId := agentId
        customerGroup := customerEmail
        package := pkg
        pricing :=
          { packageName := pkg
            packagePrice := packagePriceNum
            additionalServices := jsOrStr formData.additionalServices ""
            totalAmount := totalAmountNum
            paymentMethod := jsOrStr formData.paymentMethod "credit_card" }
        packagePrice := packagePriceNum
        additionalServices := jsOrStr formData.additionalServices ""
        totalAmount := totalAmountNum
        paymentMethod := jsOrStr formData.paymentMethod "credit_card"
        amount := totalAmountNum
        date := bookingDateIso
        departureDate := jsOrOpt (isoOrNull env (some formData.departureDate)) ""
        returnDate := jsOrOpt (isoOrNull env (some formData.returnDate)) ""
        flight :=
          { departureCity := jsOrStr formData.departureCity ""
            arrivalCity := jsOrStr formData.arrivalCity ""
            departureDate := jsOrOpt (isoOrNull env (some formData.departureDate)) ""
            returnDate := jsOrOpt (isoOrNull env (some formData.returnDate)) ""
            flightClass := jsOrStr formData.flightClass "economy"
            pnr := jsOrOpt formData.pnr "" }
        departureCity := jsOrStr formData.departureCity ""
        arrivalCity := jsOrStr formData.arrivalCity ""
        flightClass := jsOrStr formData.flightClass "economy"
        hotel :=
          { hotelName := jsOrStr formData.hotelName ""
            roomType := jsOrStr formData.roomType ""
            checkIn := jsOrOpt (isoOrNull env (some formData.checkIn)) ""
            checkOut := jsOrOpt (isoOrNull env (some formData.checkOut)) "" }
        hotelName := jsOrStr formData.hotelName ""
        roomType := jsOrStr formData.roomType ""
        checkIn := jsOrOpt (isoOrNull env (some formData.checkIn)) ""
        checkOut := jsOrOpt (isoOrNull env (some formData.checkOut)) ""
        visa :=
          { visaType := jsOrStr formData.visaType "umrah"
            passportNumber := jsOrStr formData.passportNumber ""
            nationality := jsOrStr formData.nationality "" }
        visaType := jsOrStr formData.visaType "umrah"
        passportNumber := jsOrStr formData.passportNumber ""
        nationality := jsOrStr formData.nationality ""
        transport :=
          { transportType := jsOrStr formData.transportType "bus"
            pickupLocation := jsOrStr formData.pickupLocation "" }
        transportType := jsOrStr formData.transportType "bus"
        pickupLocation := jsOrStr formData.pickupLocation ""
        payment :=
          { method := jsOrStr formData.paymentMethod "credit_card"
            cardLast4 := lastFourDigits (jsOrStr formData.cardNumber "")
            cardholderName := jsOrStr formData.cardholderName ""
            expiryDate := jsOrStr formData.expiryDate "" }
        cardNumber := jsOrStr formData.cardNumber ""
        expiryDate := jsOrStr formData.expiryDate ""
        cvv := jsOrStr formData.cvv ""
        cardholderName := jsOrStr formData.cardholderName ""
        status := "pending"
        approvalStatus := "pending" }

lemma jsOrStr_self (s : String) : jsOrStr s "" = s := by
  by_cases h : s = "" <;> simp [jsOrStr, h]

lemma lastFourDigits_le_four (s : String) : (lastFourDigits s).toList.length ≤ 4 := by
  have : (lastFourDigits s).toList = (s.toList.filter Char.isDigit).drop
      ((s.toList.filter Char.isDigit).length - 4) := rfl
  rw [this, List.length_drop]
  omega

/-- Every field of a successfully built payload, extracted once: agent
identity, masked payment object, legacy card fields, and the fixed statuses. -/
lemma build_ok_fields (env : JsEnv) (fd : BookingFormData) (user : Option AuthUser)
    (p : BookingPayload) (h : buildBookingPayload env fd user = Except.ok p) :
    p.agentId = effectiveAgentId user fd ∧
    p.payment = { method := jsOrStr fd.paymentMethod "credit_card"
                  cardLast4 := lastFourDigits (jsOrStr fd.cardNumber "")
                  cardholderName := jsOrStr fd.cardholderName ""
                  expiryDate := jsOrStr fd.expiryDate "" } ∧
    p.cardNumber = jsOrStr fd.cardNumber "" ∧
    p.cvv = jsOrStr fd.cvv "" ∧
    p.status = "pending" ∧
    p.approvalStatus = "pending" := by
  simp only [buildBookingPayload] at h
  split at h
  · exact Except.noConfusion h
  · split at h
    · exact Except.noConfusion h
    · split at h
      · exact Except.noConfusion h
      · injection h with h
        subst h
        exact ⟨rfl, rfl, rfl, rfl, rfl, rfl⟩

/-- C3: buildBookingPayload returns a payload exactly when the trimmed
customer name, trimmed customer email and trimmed package are all non-blank;
on any input where one of them is blank it throws, and it never throws
otherwise. -/
theorem buildBookingPayload_ok_iff (env : JsEnv) (fd : BookingFormData)
    (user : Option AuthUser) :
    (∃ p, buildBookingPayload env fd user = Except.ok p) ↔
      (jsTrim fd.name ≠ "" ∧ jsTrim fd.email ≠ "" ∧ optTrim fd.package ≠ "") := by
  by_cases h1 : jsTrim fd.name = "" <;> by_cases h2 : jsTrim fd.email = "" <;>
    by_cases h3 : optTrim fd.package = "" <;>
    simp [buildBookingPayload, jsOrStr_self, h1, h2, h3]

/-- The agent precedence exactly as claim C4 words it: explicit form
selection first, else the user agent id, else the user id. -/
def claimC4AgentId (formData : BookingFormData) (user : Option AuthUser) : Option String :=
  if formData.agent != "" then some formData.agent
  else
    match user.bind AuthUser.agentId with
    | some a => some a
    | none => user.bind AuthUser.id

/-- A benign environment: date parsing always fails, numeric coercion always
non-finite, fixed clock. -/
def envNone : JsEnv :=
  { nowIso := "2026-01-01T00:00:00.000Z", parseIso := fun _ => none,
    jsNumber := fun _ => none }

/-- A user carrying both an agentId and an id. -/
def userWithAgent : AuthUser :=
  { agentId := some "AGENT-7", id := some "USER-1", mongoId := none }

/-- A buildable form whose agent field explicitly selects FORM-AGENT-9. -/
def fdAgentSelected : BookingFormData :=
  { fdWhitespaceName with
    name := "Ahmed Ali"
    agent := "FORM-AGENT-9"
    package := some "Umrah Basic"
    totalAmount := "1500" }

/-- The agentId of a build result, when the build succeeded. -/
def payloadAgentOf (r : Except String BookingPayload) : Option (Option String) :=
  match r with
  | Except.ok p => some p.agentId
  | Except.error _ => none

/-- C4 counterexample: with an explicit form agent selection and a user
carrying an agentId, the built payload carries the user agentId, not the form
selection that the claim says takes precedence. -/
theorem agentId_claimC4_counterexample :
    payloadAgentOf (buildBookingPayload envNone fdAgentSelected (some userWithAgent)) =
        some (some "AGENT-7") ∧
    claimC4AgentId fdAgentSelected (some userWithAgent) = some "FORM-AGENT-9" ∧
    payloadAgentOf (buildBookingPayload envNone fdAgentSelected (some userWithAgent)) ≠
        some (claimC4AgentId fdAgentSelected (some userWithAgent)) := by
  decide

/-- C4 (amended): the effective agent identity is derived with the precedence
the authenticated user agentId first, else the user id, else the user
underscore-id, else the explicit form selection when non-empty. -/
theorem payload_agentId_precedence (env : JsEnv) (fd : BookingFormData)
    (user : Option AuthUser) (p : BookingPayload)
    (h : buildBookingPayload env fd user = Except.ok p) :
    p.agentId = effectiveAgentId user fd :=
  (build_ok_fields env fd user p h).1

/-- C4 witness: the amended precedence at the concrete input of the
counterexample. -/
theorem payload_agentId_precedence_witness :
    payloadAgentOf (buildBookingPayload envNone fdAgentSelected (some userWithAgent)) =
      some (effectiveAgentId (some userWithAgent) fdAgentSelected) := by
  cases hb : buildBookingPayload envNone fdAgentSelected (some userWithAgent) with
  | ok p =>
      simp [payloadAgentOf,
        payload_agentId_precedence envNone fdAgentSelected (some userWithAgent) p hb]
  | error e =>
      have h2 : payloadAgentOf (buildBookingPayload envNone fdAgentSelected
          (some userWithAgent)) = some (some "AGENT-7") := by decide
      rw [hb] at h2
      simp [payloadAgentOf] at h2

/-- A buildable form carrying a full card number and CVV. -/
def fdCard : BookingFormData :=
  { fdAgentSelected with
    agent := ""
    cardNumber := "4111 1111 1111 1111"
    cvv := "123"
    cardholderName := "JOHN DOE" }

/-- The legacy card fields of a build result, when the build succeeded. -/
def payloadCardOf (r : Except String BookingPayload) : Option (String × String) :=
  match r with
  | Except.ok p => some (p.cardNumber, p.cvv)
  | Except.error _ => none

/-- C5 counterexample: the payload transmitted to the backend carries the
full card number and the CVV in its flattened legacy fields, so the claim
that they are never transmitted fails at this concrete input. -/
theorem payload_pan_cvv_counterexample :
    payloadCardOf (buildBookingPayload envNone fdCard none) =
      some ("4111 1111 1111 1111", "123") := by
  decide

/-- C5 (amended): the nested payment object carries only the payment method,
the last 4 digits of the card number (never more than 4 characters), the
cardholder name and the expiry date; however the flattened legacy fields of
the same payload do carry the full card number and the CVV entered in the
credit step. -/
theorem payment_masked_but_legacy_full (env : JsEnv) (fd : BookingFormData)
    (user : Option AuthUser) (p : BookingPayload)
    (h : buildBookingPayload env fd user = Except.ok p) :
    p.payment.cardLast4 = lastFourDigits fd.cardNumber ∧
    (p.payment.cardLast4).toList.length ≤ 4 ∧
    p.payment.method = jsOrStr fd.paymentMethod "credit_card" ∧
    p.payment.cardholderName = jsOrStr fd.cardholderName "" ∧
    p.payment.expiryDate = jsOrStr fd.expiryDate "" ∧
    p.cardNumber = fd.cardNumber ∧
    p.cvv = fd.cvv := by
  have hf := (build_ok_fields env fd user p h).2
  have hp : p.payment = { method := jsOrStr fd.paymentMethod "credit_card"
                          cardLast4 := lastFourDigits (jsOrStr fd.cardNumber "")
                          cardholderName := jsOrStr fd.cardholderName ""
                          expiryDate := jsOrStr fd.expiryDate "" } := hf.1
  refine ⟨?_, ?_, ?_, ?_, ?_, ?_, ?_⟩
  · rw [hp]; simp [jsOrStr_self]
  · rw [hp]; simpa [jsOrStr_self] using lastFourDigits_le_four fd.cardNumber
  · rw [hp]
  · rw [hp]
  · rw [hp]
  · rw [hf.2.1, jsOrStr_self]
  · rw [hf.2.2.1, jsOrStr_self]

/-- C5 witness: the amended statement at the concrete card-carrying form. -/
theorem payment_masked_but_legacy_full_witness :
    (match buildBookingPayload envNone fdCard none with
     | Except.ok p => p.payment.cardLast4 = lastFourDigits fdCard.cardNumber ∧
         p.cardNumber = fdCard.cardNumber ∧ p.cvv = fdCard.cvv
     | Except.error _ => False) := by
  cases hb : buildBookingPayload envNone fdCard none with
  | ok p =>
      have hc := payment_masked_but_legacy_full envNone fdCard none p hb
      exact ⟨hc.1, hc.2.2.2.2.2.1, hc.2.2.2.2.2.2⟩
  | error e =>
      have h2 : payloadCardOf (buildBookingPayload envNone fdCard none) =
          some ("4111 1111 1111 1111", "123") := by decide
      rw [hb] at h2
      simp [payloadCardOf] at h2

/-- C10: every successfully built payload starts with status pending and
approvalStatus pending, for every form data, user and environment. -/
theorem payload_status_pending (env : JsEnv) (fd : BookingFormData)
    (user : Option AuthUser) (p : BookingPayload)
    (h : buildBookingPayload env fd user = Except.ok p) :
    p.status = "pending" ∧ p.approvalStatus = "pending" :=
  ⟨(build_ok_fields env fd user p h).2.2.2.2.1,
   (build_ok_fields env fd user p h).2.2.2.2.2⟩

/-- C10 witness: the fixed statuses at a concrete successful build. -/
theorem payload_status_pending_witness :
    (match buildBookingPayload envNone fdCard none with
     | Except.ok p => p.status = "pending" ∧ p.approvalStatus = "pending"
     | Except.error _ => False) := by
  cases hb : buildBookingPayload envNone fdCard none with
  | ok p => exact payload_status_pending envNone fdCard none p hb
  | error e =>
      have h2 : payloadCardOf (buildBookingPayload envNone fdCard none) =
          some ("4111 1111 1111 1111", "123") := by decide
      rw [hb] at h2
      simp [payloadCardOf] at h2

/-- The empty booking slot literal from the modal component. -/
def emptyForm : BookingFormData :=
  { name := "", passengers := "", adults := "", children := "", email := "",
    contactNumber := "", agent := "",
    cardNumber := "", expiryDate := "", cvv := "", cardholderName := "",
    departureCity := "", arrivalCity := "", departureDate := "", returnDate := "",
    flightClass := "economy", pnr := some "",
    hotelName := "", roomType := "", checkIn := "", checkOut := "",
    visaType := "umrah", passportNumber := "", nationality := "",
    transportType := "bus", pickupLocation := "",
    packagePrice := "", additionalServices := "", totalAmount := "",
    paymentMethod := "credit_card", package := some "", date := some "" }

/-- The booking modal state relevant to the wizard transitions. -/
structure WizardState where
  currentStep : Nat
  errors : List (String × String)
  serverError : String
  bookings : List BookingFormData
  currentBookingIndex : Nat
  formData : BookingFormData
deriving DecidableEq, Repr

/-- addAnotherBooking from source: copies the contact and payment basics from
the active form data, blanks the trip-specific fields, appends the new slot,
makes it active, and resets the step index and errors. -/
def addAnotherBooking (s : WizardState) : WizardState :=
  let newBooking : BookingFormData :=
    { name := s.formData.name
      passengers := s.formData.passengers
      adults := s.formData.adults
      children := s.formData.children
      email := s.formData.email
      contactNumber := s.formData.contactNumber
      agent := s.formData.agent
      cardNumber := s.formData.cardNumber
      expiryDate := s.formData.expiryDate
      cvv := s.formData.cvv
      cardholderName := s.formData.cardholderName
      departureCity := ""
      arrivalCity := ""
      departureDate := ""
      returnDate := ""
      flightClass := "economy"
      pnr := some ""
      hotelName := ""
      roomType := ""
      checkIn := ""
      checkOut := ""
      visaType := "umrah"
      passportNumber := ""
      nationality := ""
      transportType := "bus"
      pickupLocation := ""
      packagePrice := ""
      additionalServices := ""
      totalAmount := ""
      paymentMethod := "credit_card"
      package := some ""
      date := some "" }
  { s with
    bookings := s.bookings ++ [newBooking]
    currentBookingIndex := s.bookings.length
    formData := newBooking
    currentStep := 0
    errors := []
    serverError := "" }

/-- resetForm from source: back to a single empty slot at step 0. -/
def resetForm (s : WizardState) : WizardState :=
  { s with
    bookings := [emptyForm]
    formData := emptyForm
    currentBookingIndex := 0
    currentStep := 0
    errors := []
    serverError := "" }

/-- The submit-time validation of one slot: flight errors spread together
with costing errors (their key sets are disjoint, so the merge is append). -/
def submitErrors (b : BookingFormData) : List (String × String) :=
  validateStepData b StepId.flights ++ validateStepData b StepId.costing

/-- The submit loop scanning the slots from index i for the first slot whose
combined flights and costing errors are non-empty. -/
def firstInvalidSlot :
    Nat → List BookingFormData → Option (Nat × BookingFormData × List (String × String))
  | _, [] => none
  | i, b :: rest =>
    let e := submitErrors b
    if e ≠ [] then some (i, b, e) else firstInvalidSlot (i + 1) rest

/-- The sequential create loop of handleSubmit: builds and posts one payload
per slot; a build error aborts the loop carrying its message, and the
payloads already posted before the failure stay posted. -/
def buildPosts (env : JsEnv) (user : Option AuthUser) :
    List BookingFormData → List BookingPayload × Option String
  | [] => ([], none)
  | b :: rest =>
    match buildBookingPayload env b user with
    | Except.error msg => ([], some msg)
    | Except.ok p =>
      let r := buildPosts env user rest
      (p :: r.1, r.2)

/-- handleSubmit from source: validates flights plus costing for every slot;
on the first failing slot it activates that slot, stores its combined errors
and a server message, and returns without issuing any create request;
otherwise it posts one payload per slot and resets the wizard (a build throw
keeps the state, stores the message, and keeps the posts already issued).
The second component is the list of POST api bookings requests issued. -/
def handleSubmit (env : JsEnv) (user : Option AuthUser) (s : WizardState) :
    WizardState × List BookingPayload :=
  match firstInvalidSlot 0 s.bookings with
  | some (i, b, e) =>
    ({ s with
        currentBookingIndex := i
        formData := b
        errors := e
        serverError := "Please complete all required fields for Booking " ++ toString (i + 1) },
     [])
  | none =>
    match buildPosts env user s.bookings with
    | (posts, none) => (resetForm s, posts)
    | (posts, some msg) => ({ s with serverError := msg }, posts)

lemma firstInvalidSlot_eq (bs : List BookingFormData) (k i : Nat) (b : BookingFormData)
    (hpfx : ∀ j bj, j < i → bs.get? j = some bj → submitErrors bj = [])
    (hi : bs.get? i = some b) (hbad : submitErrors b ≠ []) :
    firstInvalidSlot k bs = some (k + i, b, submitErrors b) := by
  induction bs generalizing k i with
  | nil => simp at hi
  | cons hd tl ih =>
    cases i with
    | zero =>
        have hb : hd = b := by simpa using hi
        subst hb
        simp [firstInvalidSlot, hbad]
    | succ n =>
        have hhd : submitErrors hd = [] := hpfx 0 hd (Nat.succ_pos n) rfl
        have ht := ih (k + 1) n
          (fun j bj hj hbj => hpfx (j + 1) bj (by omega) hbj)
          (by simpa using hi)
        have harith : k + (n + 1) = k + 1 + n := by omega
        rw [harith, ← ht]
        simp [firstInvalidSlot, hhd]

/-- C2 (amended): on submit, the flights and costing rules are validated
against every slot; when slot i is the first slot whose combined errors are
non-empty, the submission aborts with no create request issued for any slot,
slot i becomes the active slot with those errors stored and a server message
naming it, and the step index is left unchanged (the code does not jump it). -/
theorem handleSubmit_first_invalid (env : JsEnv) (user : Option AuthUser)
    (s : WizardState) (i : Nat) (b : BookingFormData)
    (hpfx : ∀ j bj, j < i → s.bookings.get? j = some bj → submitErrors bj = [])
    (hi : s.bookings.get? i = some b) (hbad : submitErrors b ≠ []) :
    handleSubmit env user s =
      ({ s with
          currentBookingIndex := i
          formData := b
          errors := submitErrors b
          serverError := "Please complete all required fields for Booking " ++ toString (i + 1) },
       []) ∧
    (handleSubmit env user s).1.currentStep = s.currentStep := by
  have hf := firstInvalidSlot_eq s.bookings 0 i b hpfx hi hbad
  rw [Nat.zero_add] at hf
  constructor
  · unfold handleSubmit
    rw [hf]
  · unfold handleSubmit
    rw [hf]

/-- A slot passing both the flights and the costing validation. -/
def slotValid : BookingFormData :=
  { fdCard with
    departureCity := "Karachi"
    arrivalCity := "Jeddah"
    departureDate := "2026-02-01"
    returnDate := "2026-02-08"
    date := some "2026-02-01"
    pnr := some "ABC12D" }

/-- The valid slot with its PNR blanked: fails the flights validation only. -/
def slotNoPnr : BookingFormData :=
  { slotValid with pnr := some "" }

/-- The valid slot with costing fields blanked: fails the costing rules only. -/
def slotNoCosting : BookingFormData :=
  { slotValid with
    totalAmount := ""
    package := some "" }

/-- A two-slot wizard sitting at the last step (costing, index 6) whose
second slot is missing its PNR. -/
def wizardTwoSlots : WizardState :=
  { currentStep := 6, errors := [], serverError := "",
    bookings := [slotValid, slotNoPnr], currentBookingIndex := 1,
    formData := slotNoPnr }

/-- A two-slot wizard at the last step whose second slot fails costing. -/
def wizardCosting : WizardState :=
  { currentStep := 6, errors := [], serverError := "",
    bookings := [slotValid, slotNoCosting], currentBookingIndex := 0,
    formData := slotValid }

/-- C2 counterexample: submitting with slot 2 failing the flights rules
(missing PNR) aborts with no request issued and activates slot 2 with its
errors, but the step index stays at 6 (the costing step) even though the
only offending field, pnr, belongs to the flights step at index 2 — the
step index does not jump to a step useful for the offending fields. -/
theorem handleSubmit_claimC2_counterexample :
    (handleSubmit envNone none wizardTwoSlots).2 = [] ∧
    (handleSubmit envNone none wizardTwoSlots).1.currentBookingIndex = 1 ∧
    (handleSubmit envNone none wizardTwoSlots).1.errors = [("pnr", "PNR is required")] ∧
    validateStepData slotNoPnr StepId.flights = [("pnr", "PNR is required")] ∧
    validateStepData slotNoPnr StepId.costing = [] ∧
    stepsOrder.get? 2 = some StepId.flights ∧
    (handleSubmit envNone none wizardTwoSlots).1.currentStep = 6 ∧
    (handleSubmit envNone none wizardTwoSlots).1.currentStep ≠ 2 := by
  decide

/-- C2 witness: the amended statement at the concrete two-slot wizard whose
second slot fails the costing validation — slot 1 network call un-issued,
slot 2 active with populated errors, step index unchanged. -/
theorem handleSubmit_first_invalid_witness :
    handleSubmit envNone none wizardCosting =
      ({ wizardCosting with
          currentBookingIndex := 1
          formData := slotNoCosting
          errors := [("totalAmount", "Total amount is required"),
                     ("package", "Package is required")]
          serverError := "Please complete all required fields for Booking 2" },
       []) ∧
    (handleSubmit envNone none wizardCosting).1.currentStep = 6 := by
  have hpre : ∀ j bj, j < 1 → wizardCosting.bookings.get? j = some bj →
      submitErrors bj = [] := by
    intro j bj hj hbj
    have hj0 : j = 0 := by omega
    subst hj0
    have hb : bj = slotValid := by
      have : wizardCosting.bookings.get? 0 = some slotValid := rfl
      rw [this] at hbj
      exact (Option.some.injEq _ _).mp hbj.symm
    subst hb
    decide
  have h := handleSubmit_first_invalid envNone none wizardCosting 1 slotNoCosting
    hpre rfl (by decide)
  constructor
  · rw [h.1]
    decide
  · rw [h.1]
    rfl

/-- The slot addAnotherBooking builds out of a given slot: contact and
payment fields copied, trip-specific fields blank or defaulted exactly as in
the empty slot. -/
def copiedSlot (b : BookingFormData) : BookingFormData :=
  { emptyForm with
    name := b.name
    passengers := b.passengers
    adults := b.adults
    children := b.children
    email := b.email
    contactNumber := b.contactNumber
    agent := b.agent
    cardNumber := b.cardNumber
    expiryDate := b.expiryDate
    cvv := b.cvv
    cardholderName := b.cardholderName }

/-- C8: with the form data in sync with the active slot, addAnotherBooking
appends a slot whose contact and payment fields equal those of the previously
active slot and whose trip-specific fields are the blank defaults; the new
slot becomes the active slot and the form data, the step index resets to 0
and the error map is cleared. -/
theorem addAnotherBooking_spec (s : WizardState) (active : BookingFormData)
    (hidx : s.bookings.get? s.currentBookingIndex = some active)
    (hsync : s.formData = active) :
    addAnotherBooking s =
      { currentStep := 0
        errors := []
        serverError := ""
        bookings := s.bookings ++ [copiedSlot active]
        currentBookingIndex := s.bookings.length
        formData := copiedSlot active } := by
  subst hsync
  rfl

/-- A one-slot wizard mid-edit, with a pending error and a server message. -/
def wizardBefore : WizardState :=
  { currentStep := 3, errors := [("x", "y")], serverError := "boom",
    bookings := [fdCard], currentBookingIndex := 0, formData := fdCard }

/-- C8 witness: the theorem applied to the concrete one-slot wizard. -/
theorem addAnotherBooking_spec_witness :
    addAnotherBooking wizardBefore =
      { currentStep := 0
        errors := []
        serverError := ""
        bookings := wizardBefore.bookings ++ [copiedSlot fdCard]
        currentBookingIndex := wizardBefore.bookings.length
        formData := copiedSlot fdCard } :=
  addAnotherBooking_spec wizardBefore fdCard rfl rfl

namespace Bookings

/-- The nested pricing object a backend record may carry. -/
structure PricingIn where
  totalAmount : Option JsVal := none
  packageName : Option String := none
deriving DecidableEq, Repr

/-- The nested flight object a backend record may carry, restricted to the
fields mapBooking reads. -/
structure FlightIn where
  departureDate : Option String := none
  returnDate : Option String := none
  pnr : Option String := none
  paymentMethod : Option String := none
deriving DecidableEq, Repr

/-- The nested agent object a backend record may carry; mongoId models the
underscore-id field. -/
structure AgentIn where
  mongoId : Option String := none
  id : Option String := none
  name : Option String := none
deriving DecidableEq, Repr

/-- A backend booking record as read by mapBooking: every field optional,
in either the legacy flat shape or the newer nested shape. Fields that
mapBooking passes through untouched are kept as opaque JS values. All fields
default to absent so a test record lists only what it carries. -/
structure BackendBooking where
  mongoId : Option String := none
  id : Option String := none
  customerName : Option String := none
  customer : Option String := none
  customerEmail : Option String := none
  email : Option String := none
  contactNumber : Option String := none
  phone : Option String := none
  package : Option String := none
  pricing : Option PricingIn := none
  amount : Option JsVal := none
  totalAmount : Option JsVal := none
  flight : Option FlightIn := none
  departureDate : Option String := none
  returnDate : Option String := none
  status : Option String := none
  approvalStatus : Option String := none
  agentId : Option String := none
  agentName : Option String := none
  agent : Option AgentIn := none
  pnr : Option String := none
  flightPaymentMethod : Option String := none
  hotel : Option JsVal := none
  visa : Option JsVal := none
  transport : Option JsVal := none
  payment : Option JsVal := none
  passengers : Option JsVal := none
  adults : Option JsVal := none
  children : Option JsVal := none
  paymentMethod : Option JsVal := none
  packagePrice : Option JsVal := none
  additionalServices : Option JsVal := none
  hotels : Option JsVal := none
  visas : Option JsVal := none
deriving DecidableEq, Repr

/-- The UI view-model produced by mapBooking. -/
structure UiBooking where
  id : String
  customer : String
  email : String
  phone : String
  package : String
  departureDate : String
  returnDate : String
  status : String
  amount : Int
  agentId : Option String
  agentName : String
  approvalStatus : String
  pnr : String
  flightPaymentMethod : Option String
  flight : Option FlightIn
  hotel : Option JsVal
  visa : Option JsVal
  transport : Option JsVal
  payment : Option JsVal
  passengers : Option JsVal
  adults : Option JsVal
  children : Option JsVal
  paymentMethod : Option JsVal
  packagePrice : Option JsVal
  additionalServices : Option JsVal
  pricing : Option PricingIn
  hotels : Option JsVal
  visas : Option JsVal
deriving DecidableEq, Repr

/-- JS logical-or on coerced numbers: 0 is falsy (toNumberMaybe never
produces NaN, it returns 0 for those instead). -/
def jsOrNum (a b : Int) : Int :=
  if a = 0 then b else a

/-- formatDate from Bookings.tsx: empty for a falsy or unparsable date,
otherwise the first 10 chars of the ISO form. -/
def formatDate (env : JsEnv) (d : String) : String :=
  if d == "" then ""
  else
    match env.parseIso d with
    | none => ""
    | some iso => String.mk (iso.toList.take 10)

/-- mapBooking from Bookings.tsx: normalizes an API booking of either shape
into the UI view-model. The impure id fallback (crypto.randomUUID or
Math.random) is abstracted as the freshId argument. -/
def mapBooking (env : JsEnv) (freshId : String) (b : BackendBooking) : UiBooking :=
  let bid := jsOrOpt b.mongoId (jsOrOpt b.id freshId)
  let customer := (b.customerName.orElse fun _ => b.customer).getD "Unknown"
  let email := (b.customerEmail.orElse fun _ => b.email).getD ""
  let phone := (b.contactNumber.orElse fun _ => b.phone).getD ""
  let pkg := (b.package.orElse fun _ => b.pricing.bind PricingIn.packageName).getD "—"
  let amount :=
    jsOrNum (toNumberMaybeU env b.amount)
      (jsOrNum (toNumberMaybeU env (b.pricing.bind PricingIn.totalAmount))
        (jsOrNum (toNumberMaybeU env b.totalAmount) 0))
  let dep := ((b.flight.bind FlightIn.departureDate).orElse fun _ => b.departureDate).getD ""
  let ret := ((b.flight.bind FlightIn.returnDate).orElse fun _ => b.returnDate).getD ""
  let status := b.status.getD "pending"
  let approvalStatus := b.approvalStatus.getD "pending"
  let agentId := b.agentId.orElse fun _ =>
    (b.agent.bind AgentIn.mongoId).orElse fun _ => b.agent.bind AgentIn.id
  let agentName := (b.agentName.orElse fun _ => b.agent.bind AgentIn.name).getD ""
  let pnr := (b.pnr.orElse fun _ => b.flight.bind FlightIn.pnr).getD ""
  let flightPaymentMethod :=
    b.flightPaymentMethod.orElse fun _ => b.flight.bind FlightIn.paymentMethod
  { id := bid
    customer := customer
    email := email
    phone := phone
    package := pkg
    departureDate := formatDate env dep
    returnDate := formatDate env ret
    status := status
    amount := amount
    agentId := agentId
    agentName := agentName
    approvalStatus := approvalStatus
    pnr := pnr
    flightPaymentMethod := flightPaymentMethod
    flight := b.flight
    hotel := b.hotel
    visa := b.visa
    transport := b.transport
    payment := b.payment
    passengers := b.passengers
    adults := b.adults
    children := b.children
    paymentMethod := b.paymentMethod
    packagePrice := b.packagePrice
    additionalServices := b.additionalServices
    pricing := b.pricing
    hotels := b.hotels
    visas := b.visas }

/-- A record carrying only the legacy flat fields for customer, email and
amount, and no nested objects. -/
def flatRecord (c e : String) (t : JsVal) : BackendBooking :=
  { customer := some c
    email := some e
    totalAmount := some t }

/-- A record carrying only the nested equivalents of the same data. -/
def nestedRecord (c e : String) (t : JsVal) : BackendBooking :=
  { customerName := some c
    customerEmail := some e
    pricing := some { totalAmount := some t, packageName := none } }

/-- C7: mapBooking sends a record carrying only the legacy flat fields
(customer, email, totalAmount) to the same customer, email and amount as the
record carrying the nested equivalents (customerName, customerEmail,
pricing.totalAmount), for every field content, environment and id fallback. -/
theorem mapBooking_flat_nested_equiv (env : JsEnv) (freshId : String)
    (c e : String) (t : JsVal) :
    (mapBooking env freshId (flatRecord c e t)).customer =
      (mapBooking env freshId (nestedRecord c e t)).customer ∧
    (mapBooking env freshId (flatRecord c e t)).email =
      (mapBooking env freshId (nestedRecord c e t)).email ∧
    (mapBooking env freshId (flatRecord c e t)).amount =
      (mapBooking env freshId (nestedRecord c e t)).amount := by
  refine ⟨rfl, rfl, ?_⟩
  simp [mapBooking, flatRecord, nestedRecord, jsOrNum, toNumberMaybeU]

/-- handleDelete from Bookings.tsx, as a pure function of the current list,
the target id, the confirm dialog outcome, and whether the DELETE request
succeeds: returns the resulting list and whether the failure alert fired. -/
def handleDelete (bookings : List UiBooking) (id : String)
    (confirmDelete : Bool) (requestSucceeds : Bool) : List UiBooking × Bool :=
  if !confirmDelete then (bookings, false)
  else
    let prev := bookings
    let optimistic := bookings.filter (fun b => b.id != id)
    if requestSucceeds then (optimistic, false)
    else (prev, true)

/-- C9: for every booking list and id, when the confirmed DELETE request
fails the list is restored exactly to its pre-delete state and the failure
alert fires; when it succeeds, the optimistic removal stands and no entry
with the deleted id remains. -/
theorem handleDelete_rollback (bookings : List UiBooking) (id : String) :
    handleDelete bookings id true false = (bookings, true) ∧
    handleDelete bookings id true true =
      (bookings.filter (fun b => b.id != id), false) ∧
    (handleDelete bookings id true true).1.all (fun b => b.id != id) = true := by
  refine ⟨rfl, rfl, ?_⟩
  simp only [handleDelete, Bool.not_true, Bool.false_eq_true, if_false, if_true,
    List.all_eq_true]
  intro b hb
  exact (List.mem_filter.mp hb).2

end Bookings

end BookingFront
